import Mathlib

/-!
Verification of the oathkeeper-configurator charm (`src/charm.py`) against its
natural-language specification.

The development shallowly embeds the charm's route-configuration model
(`_RouteConfig`), its rule derivation (`generate_rule_from_url` over the
standard library's `urlparse().hostname`), the traefik config generation and
merge, and the event-driven status reconciliation (`_on_config_changed`,
`_on_ingress_data_provided`, `_on_update_status`) together with the sticky
`invalid_config` flag.

Python strings are Lean `String`s; `None`-able values are `Option`; Python
exceptions are `Except` errors.  The jinja2 templating engine is embedded on
the fragment the charm exercises: literal text plus double-brace variable
placeholders over identifiers (written below with escaped braces); the
stdlib JSON decoder is embedded by a small JSON-syntax checker and, where it
only matters whether decoding succeeds, abstracted as a `String → Bool`
parameter.
-/

deriving instance DecidableEq for Except

/-- Truthiness of an optional Python string: `None` and `""` are falsy. -/
def pyTruthy : Option String → Bool
  | none => false
  | some s => !s.isEmpty

/-- The whitespace characters recognised by Python's `str.isspace`/`str.strip`
(ASCII fragment). -/
def pyIsSpaceChar (c : Char) : Bool :=
  c = ' ' || c = '\t' || c = '\n' || c = '\r' || c = '\x0b' || c = '\x0c'

/-- Python `str.isspace`: non-empty and all characters whitespace. -/
def pyIsSpace (s : String) : Bool :=
  !s.isEmpty && s.data.all pyIsSpaceChar

/-- Python `str.strip()`: remove leading and trailing whitespace. -/
def pyStrip (s : String) : String :=
  ⟨((s.data.dropWhile pyIsSpaceChar).reverse.dropWhile pyIsSpaceChar).reverse⟩

/-- `_is_not_empty` from `charm.py`: the config value is a non-`None`,
non-empty, non-whitespace-only string. -/
def _is_not_empty (config : Option String) : Bool :=
  match config with
  | none => false
  | some s => !s.isEmpty && !pyIsSpace s

/-! ## The template engine (jinja2 fragment used by the charm)

A template is literal text interspersed with variable placeholders
`\x7b\x7b name \x7d\x7d`.  Parsing a template models `jinja2.Template(obj)`:
it fails (`TemplateSyntaxError`) on an unterminated or malformed placeholder
and on statement/comment blocks, which are outside the fragment the charm
supports.  Rendering models `Template.render` with `StrictUndefined`: a
placeholder outside the three provided variables `juju_model`,
`juju_application`, `juju_unit` raises, which `_render` converts to
`TemplateKeyError`. -/

/-- One parsed template item: a literal character or a variable placeholder. -/
inductive TItem where
  | lit (c : Char)
  | var (v : String)
deriving Repr, DecidableEq

/-- Identifier characters for placeholder names. -/
def isIdentChar (c : Char) : Bool := c.isAlphanum || c = '_'

/-- Parse the inside of a variable block, after the opening double brace:
optional spaces, an identifier, optional spaces, then the closing double
brace.  Returns the variable name and the remaining input. -/
def parseVarBlock (cs : List Char) : Option (String × List Char) :=
  let cs1 := cs.dropWhile (· = ' ')
  let ident := cs1.takeWhile isIdentChar
  let cs2 := cs1.dropWhile isIdentChar
  match ident with
  | [] => none
  | c0 :: _ =>
    if !(c0.isAlpha || c0 = '_') then none
    else
      match cs2.dropWhile (· = ' ') with
      | '}' :: '}' :: rest => some (⟨ident⟩, rest)
      | _ => none

/-- Fuel-driven template scanner.  The fuel is an upper bound on the number of
scanning steps; `parseTemplate` supplies enough for any input. -/
def parseTemplateAux : Nat → List Char → Option (List TItem)
  | _, [] => some []
  | 0, _ :: _ => none
  | fuel + 1, '{' :: '{' :: rest =>
    match parseVarBlock rest with
    | none => none
    | some (v, rest1) => (parseTemplateAux fuel rest1).map (TItem.var v :: ·)
  | _ + 1, '{' :: '%' :: _ => none
  | _ + 1, '{' :: '#' :: _ => none
  | fuel + 1, c :: rest => (parseTemplateAux fuel rest).map (TItem.lit c :: ·)

/-- Parse a template string; `none` models `jinja2.TemplateSyntaxError`. -/
def parseTemplate (s : String) : Option (List TItem) :=
  parseTemplateAux (s.length + 1) s.data

/-- The three context variables the charm provides to every render
(`charm.py` line 124): `juju_model`, `juju_application`, `juju_unit`. -/
def lookupVar (model_name unit_name app_name : String) (v : String) : Option String :=
  if v = "juju_model" then some model_name
  else if v = "juju_application" then some app_name
  else if v = "juju_unit" then some unit_name
  else none

/-- Errors arising from `_RouteConfig.render` and its callees. -/
inductive RenderErr where
  /-- `jinja2.TemplateSyntaxError` raised by `jinja2.Template(template)`. -/
  | malformedTemplate (template : String)
  /-- `TemplateKeyError(template, key)`: the template references an
  unsupported variable. -/
  | templateKey (template : String) (key : String)
  /-- `RuleDerivationError(url)`: no hostname can be extracted. -/
  | ruleDerivation (url : String)
  /-- `ValueError(msg)` raised by the stdlib `urlsplit` on a netloc with a
  mismatched square bracket. -/
  | valueError (msg : String)
  /-- `TypeError` from passing `None` where a string template is expected. -/
  | typeErr
deriving Repr, DecidableEq

/-- Render a parsed template: substitute each recognised placeholder, fail on
the first unrecognised one (`StrictUndefined`, converted to
`TemplateKeyError` by `_render` in `charm.py`). -/
def renderItems (t model_name unit_name app_name : String) :
    List TItem → Except RenderErr String
  | [] => .ok ""
  | .lit c :: rest =>
    (renderItems t model_name unit_name app_name rest).map (fun s => ⟨c :: s.data⟩)
  | .var v :: rest =>
    match lookupVar model_name unit_name app_name v with
    | none => .error (.templateKey t v)
    | some val => (renderItems t model_name unit_name app_name rest).map (val ++ ·)

/-- `_render` from `_RouteConfig.render`: parse then strictly render. -/
def renderTemplate (model_name unit_name app_name : String) (t : String) :
    Except RenderErr String :=
  match parseTemplate t with
  | none => .error (.malformedTemplate t)
  | some items => renderItems t model_name unit_name app_name items

/-! ## `urlparse().hostname` (stdlib fragment used by `generate_rule_from_url`) -/

/-- Characters allowed in a URL scheme. -/
def isSchemeChar (c : Char) : Bool := c.isAlphanum || c = '+' || c = '-' || c = '.'

/-- Drop a valid `scheme:` prefix, if present (stdlib `urlsplit`). -/
def splitScheme (cs : List Char) : List Char :=
  let pre := cs.takeWhile (· ≠ ':')
  match cs.drop pre.length with
  | ':' :: rest =>
    match pre with
    | [] => cs
    | c0 :: _ => if c0.isAlpha && pre.all isSchemeChar then rest else cs
  | _ => cs

/-- The network-location component: present only when the input (after the
scheme) starts with a double slash; extends to the next `/`, `?` or `#`. -/
def netlocOf (cs : List Char) : List Char :=
  match splitScheme cs with
  | '/' :: '/' :: rest => rest.takeWhile (fun c => c ≠ '/' && c ≠ '?' && c ≠ '#')
  | _ => []

/-- The part of the netloc after the last `@` (userinfo removal). -/
def afterLastAt (cs : List Char) : List Char :=
  (cs.reverse.takeWhile (· ≠ '@')).reverse

/-- Extract the host from the hostinfo: bracketed IPv6 literal, or everything
before the port separator. -/
def hostFromHostinfo (cs : List Char) : List Char :=
  if cs.contains '[' then ((cs.dropWhile (· ≠ '[')).drop 1).takeWhile (· ≠ ']')
  else cs.takeWhile (· ≠ ':')

/-- The stdlib `urlsplit` check that raises `ValueError("Invalid IPv6 URL")`:
the netloc contains one kind of square bracket but not the other.  This check
is present in every CPython 3. -/
def invalidIPv6Netloc (netloc : List Char) : Bool :=
  (netloc.contains '[' && !netloc.contains ']') ||
  (netloc.contains ']' && !netloc.contains '[')

/-- Model of Python's `urlparse(url).hostname` as of CPython 3.10 (the
runtime the 2023 charm targets): `urlsplit` raises `ValueError` on a netloc
with a mismatched bracket; otherwise the hostname is the lower-cased host of
the netloc, or `None` when empty.  (The stricter validation of the contents
of a matched bracket pair added in CPython 3.11 is outside the modelled
fragment; theorems about bracket-carrying success cases are therefore
guarded on a bracket-free netloc, where every CPython 3 agrees.) -/
def urlparseHostname (url : String) : Except String (Option String) :=
  let netloc := netlocOf url.data
  if invalidIPv6Netloc netloc then .error "Invalid IPv6 URL"
  else
    let h := hostFromHostinfo (afterLastAt netloc)
    if h.isEmpty then .ok none else .ok (some ⟨h.map Char.toLower⟩)

/-! ## `_RouteConfig` -/

/-- The `RouteConfig` dataclass: a fully rendered route descriptor. -/
structure RouteConfig where
  root_url : String
  rule : String
  id_ : String
deriving Repr, DecidableEq

/-- The `_RouteConfig` dataclass: the raw configured template pair.  Either
field is `None` when missing from the charm config. -/
structure _RouteConfig where
  root_url : Option String
  rule : Option String := none
deriving Repr, DecidableEq

/-- `_RouteConfig.generate_rule_from_url`: derive a traefik Host rule from
the URL's hostname, raising `RuleDerivationError` when there is none;
`urlparse` itself may raise `ValueError`, which propagates. -/
def generate_rule_from_url (url : String) : Except RenderErr String :=
  match urlparseHostname url with
  | .error msg => .error (.valueError msg)
  | .ok none => .error (.ruleDerivation url)
  | .ok (some h) => .ok ("Host(`" ++ h ++ "`)")

/-- `_RouteConfig.render`: render `root_url`, then render the rule or derive
it from the rendered URL when the configured rule is falsy; the id joins
`unit_name` and `model_name` with a dash. -/
def _RouteConfig.render (c : _RouteConfig) (model_name unit_name app_name : String) :
    Except RenderErr RouteConfig :=
  match c.root_url with
  | none => .error .typeErr
  | some ru =>
    match renderTemplate model_name unit_name app_name ru with
    | .error e => .error e
    | .ok url =>
      let ruleRes :=
        if pyTruthy c.rule then
          renderTemplate model_name unit_name app_name (c.rule.getD "")
        else generate_rule_from_url url
      match ruleRes with
      | .error e => .error e
      | .ok rule =>
        .ok { root_url := url, rule := rule, id_ := unit_name ++ "-" ++ model_name }

/-- `_check_var` from `_RouteConfig.is_valid`: the value is non-empty,
non-whitespace-only, and carries no surrounding whitespace. -/
def _check_var (obj : Option String) : Bool :=
  _is_not_empty obj && (obj.getD "" = pyStrip (obj.getD ""))

/-- `_RouteConfig.is_valid`: when `root_url` is truthy, first try a render
with dummy values, returning `False` on `TemplateKeyError` or
`RuleDerivationError` (any other exception propagates); then check
`root_url` alone when the rule is falsy, else check both fields. -/
def _RouteConfig.is_valid (c : _RouteConfig) : Except RenderErr Bool :=
  let checks : Bool :=
    if !pyTruthy c.rule then _check_var c.root_url
    else _check_var c.rule && _check_var c.root_url
  if pyTruthy c.root_url then
    match c.render "foo" "bar" "baz" with
    | .error (.templateKey _ _) => .ok false
    | .error (.ruleDerivation _) => .ok false
    | .error e => .error e
    | .ok _ => .ok checks
  else .ok checks

/-! ## JSON well-formedness (stdlib `json.loads` fragment)

`validate_access_rules_config` only cares whether `json.loads` succeeds.  The
event handlers below are parameterised by an abstract decoder
`jsonLoads : String → Bool`; the concrete checker `jsonOk` implements the
JSON value grammar accepted by the stdlib decoder (including its `NaN` and
`Infinity` extensions) and is used for closed instances. -/

/-- JSON whitespace. -/
def jsonWs (c : Char) : Bool := c = ' ' || c = '\t' || c = '\n' || c = '\r'

/-- Hexadecimal digit. -/
def isHexDigit (c : Char) : Bool :=
  c.isDigit || ('a' ≤ c && c ≤ 'f') || ('A' ≤ c && c ≤ 'F')

/-- Scan a JSON string body after the opening quote; returns the rest after
the closing quote. -/
def jsonStringBody : List Char → Option (List Char)
  | '"' :: rest => some rest
  | '\\' :: 'u' :: a :: b :: c :: d :: rest =>
    if isHexDigit a && isHexDigit b && isHexDigit c && isHexDigit d then
      jsonStringBody rest
    else none
  | '\\' :: c :: rest =>
    if c = '"' || c = '\\' || c = '/' || c = 'b' || c = 'f' || c = 'n' || c = 'r' || c = 't'
    then jsonStringBody rest else none
  | c :: rest => if c.toNat ≥ 0x20 then jsonStringBody rest else none
  | [] => none

/-- Scan a JSON number; returns the rest on success. -/
def jsonNumber (cs : List Char) : Option (List Char) :=
  let cs1 := match cs with | '-' :: r => r | _ => cs
  let intRes : Option (List Char) :=
    match cs1 with
    | '0' :: r => some r
    | c :: r => if c.isDigit then some (r.dropWhile Char.isDigit) else none
    | [] => none
  match intRes with
  | none => none
  | some r2 =>
    let r3 := match r2 with
      | '.' :: c :: r => if c.isDigit then r.dropWhile Char.isDigit else '.' :: c :: r
      | r => r
    if r3.length ≠ r2.length ∨ r2 = r3 then
      -- fraction consumed (or absent); now the optional exponent
      match r3 with
      | e :: r =>
        if e = 'e' || e = 'E' then
          let r4 := match r with | '+' :: r5 => r5 | '-' :: r5 => r5 | r5 => r5
          match r4 with
          | c :: r6 => if c.isDigit then some (r6.dropWhile Char.isDigit) else none
          | [] => none
        else some (e :: r)
      | [] => some []
    else none

mutual

/-- Scan one JSON value (no surrounding whitespace). -/
def jsonValueAux : Nat → List Char → Option (List Char)
  | 0, _ => none
  | f + 1, cs =>
    match cs with
    | '{' :: rest =>
      (match rest.dropWhile jsonWs with
       | '}' :: r => some r
       | r => jsonMembersAux f r)
    | '[' :: rest =>
      (match rest.dropWhile jsonWs with
       | ']' :: r => some r
       | r => jsonElementsAux f r)
    | '"' :: rest => jsonStringBody rest
    | 't' :: 'r' :: 'u' :: 'e' :: rest => some rest
    | 'f' :: 'a' :: 'l' :: 's' :: 'e' :: rest => some rest
    | 'n' :: 'u' :: 'l' :: 'l' :: rest => some rest
    | 'N' :: 'a' :: 'N' :: rest => some rest
    | 'I' :: 'n' :: 'f' :: 'i' :: 'n' :: 'i' :: 't' :: 'y' :: rest => some rest
    | '-' :: 'I' :: 'n' :: 'f' :: 'i' :: 'n' :: 'i' :: 't' :: 'y' :: rest => some rest
    | _ => jsonNumber cs

/-- Scan the members of an object, starting at a key. -/
def jsonMembersAux : Nat → List Char → Option (List Char)
  | 0, _ => none
  | f + 1, cs =>
    match cs with
    | '"' :: rest =>
      (match jsonStringBody rest with
       | none => none
       | some r1 =>
         match r1.dropWhile jsonWs with
         | ':' :: r2 =>
           (match jsonValueAux f (r2.dropWhile jsonWs) with
            | none => none
            | some r3 =>
              match r3.dropWhile jsonWs with
              | ',' :: r4 => jsonMembersAux f (r4.dropWhile jsonWs)
              | '}' :: r4 => some r4
              | _ => none)
         | _ => none)
    | _ => none

/-- Scan the elements of an array, starting at a value. -/
def jsonElementsAux : Nat → List Char → Option (List Char)
  | 0, _ => none
  | f + 1, cs =>
    match jsonValueAux f cs with
    | none => none
    | some r1 =>
      match r1.dropWhile jsonWs with
      | ',' :: r2 => jsonElementsAux f (r2.dropWhile jsonWs)
      | ']' :: r2 => some r2
      | _ => none

end

/-- Whether `json.loads` succeeds on the string: one value surrounded by
optional whitespace. -/
def jsonOk (s : String) : Bool :=
  match jsonValueAux (s.length + 1) (s.data.dropWhile jsonWs) with
  | some rest => (rest.dropWhile jsonWs).isEmpty
  | none => false

/-! ## Traefik configuration generation and merge -/

/-- One backend server entry `\x7burl\x7d`. -/
structure ServerEntry where
  url : String
deriving Repr, DecidableEq

/-- `loadBalancer` payload of a traefik service. -/
structure LoadBalancer where
  servers : List ServerEntry
deriving Repr, DecidableEq

/-- A traefik service spec. -/
structure ServiceSpec where
  loadBalancer : LoadBalancer
deriving Repr, DecidableEq

/-- A traefik router spec. -/
structure Router where
  rule : String
  service : String
  entryPoints : List String
  middlewares : List String
deriving Repr, DecidableEq

/-- The `UnitConfig` dict built by `_generate_traefik_unit_config`. -/
structure UnitConfig where
  router : Router
  router_name : String
  service : ServiceSpec
  service_name : String
deriving Repr, DecidableEq

/-- Python `dict` insertion: overwrite the value at an existing key in place,
else append the binding. -/
def dictInsert {A : Type} (k : String) (v : A) : List (String × A) → List (String × A)
  | [] => [(k, v)]
  | (k1, v1) :: rest => if k1 = k then (k1, v) :: rest else (k1, v1) :: dictInsert k v rest

/-- A Python dict comprehension over a list of key-value pairs: insert each
pair in order (later pairs overwrite earlier ones). -/
def dictOfList {A : Type} (l : List (String × A)) : List (String × A) :=
  l.foldl (fun d kv => dictInsert kv.1 kv.2 d) []

/-- The nested `http` mapping of a `TraefikConfig`. -/
structure HttpConfig where
  routers : List (String × Router)
  services : List (String × ServiceSpec)
deriving Repr, DecidableEq

/-- The merged traefik configuration. -/
structure TraefikConfig where
  http : HttpConfig
deriving Repr, DecidableEq

/-- `_generate_traefik_unit_config`: the per-unit router and service specs,
with names `juju-<id>-router` and `juju-<id>-service`. -/
def _generate_traefik_unit_config (config : RouteConfig) : UnitConfig :=
  let traefik_router_name := "juju-" ++ config.id_ ++ "-router"
  let traefik_service_name := "juju-" ++ config.id_ ++ "-service"
  { router := { rule := config.rule, service := traefik_service_name,
                entryPoints := ["web"], middlewares := ["oathkeeper"] },
    router_name := traefik_router_name,
    service := { loadBalancer := { servers := [{ url := config.root_url }] } },
    service_name := traefik_service_name }

/-- `_merge_traefik_configs`: two dict comprehensions keyed by the router and
service names. -/
def _merge_traefik_configs (configs : List UnitConfig) : TraefikConfig :=
  { http := { routers := dictOfList (configs.map fun c => (c.router_name, c.router)),
              services := dictOfList (configs.map fun c => (c.service_name, c.service)) } }

/-! ## Per-unit configuration from relation data -/

/-- The fields of `RequirerData` the charm reads; `name` is `Option` to model
the `is not None` assertion. -/
structure RequirerData where
  name : Option String
  model : String
deriving Repr, DecidableEq

/-- Errors escaping a charm event handler. -/
inductive CharmErr where
  /-- A failed `assert` in `_config_for_unit`. -/
  | assertionError
  /-- A rendering/derivation exception from `_RouteConfig`. -/
  | renderErr (e : RenderErr)
deriving Repr, DecidableEq

/-- Python `str.replace` of every slash by a dash. -/
def pyReplaceSlash (s : String) : String :=
  ⟨s.data.map fun c => if c = '/' then '-' else c⟩

/-- Python `s.split("/")[0]`: the segment before the first slash. -/
def pySplitSlashHead (s : String) : String :=
  ⟨s.data.takeWhile (· ≠ '/')⟩

/-- `_config_for_unit`: assert the remote unit name is present and contains a
slash, then render with the slash-normalised unit name and the application
segment. -/
def _config_for_unit (cfg : _RouteConfig) (unit_data : RequirerData) :
    Except CharmErr RouteConfig :=
  match unit_data.name with
  | none => .error .assertionError
  | some unit_name =>
    if !unit_name.data.contains '/' then .error .assertionError
    else
      match cfg.render unit_data.model (pyReplaceSlash unit_name) (pySplitSlashHead unit_name) with
      | .error e => .error (.renderErr e)
      | .ok rc => .ok rc

/-! ## The charm's event-driven status reconciliation -/

/-- The unit status values the charm sets. -/
inductive Status where
  | maintenance (msg : String)
  | blocked (msg : String)
  | active
  /-- The status as it was before the event (never written by the charm). -/
  | unchanged
deriving Repr, DecidableEq

/-- The mutable charm state: the sticky `invalid_config` stored flag and the
unit status. -/
structure CharmState where
  invalid_config : Bool
  status : Status
deriving Repr, DecidableEq

/-- The inputs an event handler reads: charm config, the single
ingress-per-unit relation (existence, readiness) and the relation data of the
units that pass `is_unit_ready`. -/
structure World where
  access_rules : Option String
  root_url : Option String
  rule : Option String
  ipuRelationExists : Bool
  ipuRelationReady : Bool
  readyUnitData : List RequirerData
deriving Repr, DecidableEq

/-- The `_config` property: the `_RouteConfig` built from the charm config. -/
def World.routeCfg (w : World) : _RouteConfig :=
  { root_url := w.root_url, rule := w.rule }

/-- `access_rules_configured`: `_is_not_empty` of
`config.get("access_rules", "")`. -/
def access_rules_configured (w : World) : Bool :=
  _is_not_empty (some (w.access_rules.getD ""))

/-- `_is_traefik_configuration_valid`: recompute the validity of the route
config and store its negation in the sticky flag. -/
def _is_traefik_configuration_valid (w : World) (s : CharmState) :
    Except CharmErr (Bool × CharmState) :=
  match w.routeCfg.is_valid with
  | .error e => .error (.renderErr e)
  | .ok false => .ok (false, { s with invalid_config := true })
  | .ok true => .ok (true, { s with invalid_config := false })

/-- `_is_traefik_config_ready`: invalid config blocks the unit; then the
relation must exist and be ready. -/
def _is_traefik_config_ready (w : World) (s : CharmState) :
    Except CharmErr (Bool × CharmState) :=
  match _is_traefik_configuration_valid w s with
  | .error e => .error e
  | .ok (false, s1) =>
    .ok (false, { s1 with status := .blocked "Invalid or missing config. See logs for more info" })
  | .ok (true, s1) =>
    if !w.ipuRelationExists then .ok (false, s1)
    else if !w.ipuRelationReady then .ok (false, s1)
    else .ok (true, s1)

/-- `_generate_traefik_forwardauth_config`: render every ready unit's config,
generate its traefik unit config, and merge.  (The publication of each url is
an external side effect with no bearing on charm state.) -/
def _generate_traefik_forwardauth_config (w : World) : Except CharmErr TraefikConfig := do
  let unit_configs ← w.readyUnitData.mapM fun ud => do
    let config_data ← _config_for_unit w.routeCfg ud
    pure (_generate_traefik_unit_config config_data)
  pure (_merge_traefik_configs unit_configs)

/-- `_on_update_status`: keep the previous status under the sticky flag; set
Blocked for missing access rules (falling through), then Blocked or Active by
relation state. -/
def _on_update_status (w : World) (s : CharmState) : CharmState :=
  if s.invalid_config then s
  else
    let s1 :=
      if !access_rules_configured w then
        { s with status := .blocked "Missing required configuration value: access_rules" }
      else s
    if !w.ipuRelationExists then
      { s1 with status := .blocked "Awaiting to be related via ingress-per-unit" }
    else if !w.ipuRelationReady then
      { s1 with status := .blocked "ingress-per-unit relation is not ready" }
    else { s1 with status := .active }

/-- The tail of `_on_config_changed` after the access-rules block: set
Maintenance, run the readiness check, generate the config when ready, then
update the status. -/
def configChangedTail (w : World) (s : CharmState) : Except CharmErr CharmState :=
  match _is_traefik_config_ready w
      { s with status := .maintenance "Configuring the charm" } with
  | .error e => .error e
  | .ok (ready, s1) =>
    if ready then
      match _generate_traefik_forwardauth_config w with
      | .error e => .error e
      | .ok _ => .ok (_on_update_status w s1)
    else .ok (_on_update_status w s1)

/-- `_on_config_changed`: when access rules are configured, validate their
JSON (clearing or setting the sticky flag, returning early on failure), then
proceed with the traefik configuration path. -/
def _on_config_changed (jsonLoads : String → Bool) (w : World) (s : CharmState) :
    Except CharmErr CharmState :=
  if access_rules_configured w then
    if jsonLoads (w.access_rules.getD "") then
      configChangedTail w { s with invalid_config := false }
    else
      .ok { s with status := .blocked "Invalid json configuration, see logs",
                   invalid_config := true }
  else configChangedTail w s

/-- Result of `_on_ingress_data_provided`: the event is either deferred or
handled; either way the charm state may have changed. -/
inductive IngressResult where
  | deferred (s : CharmState)
  | handled (s : CharmState)
deriving Repr, DecidableEq

/-- The charm state carried by an `IngressResult`. -/
def IngressResult.state : IngressResult → CharmState
  | .deferred s => s
  | .handled s => s

/-- `_on_ingress_data_provided`: defer unless the traefik config is ready,
else generate the forwardauth config and update the status. -/
def _on_ingress_data_provided (w : World) (s : CharmState) :
    Except CharmErr IngressResult :=
  match _is_traefik_config_ready w s with
  | .error e => .error e
  | .ok (false, s1) => .ok (.deferred s1)
  | .ok (true, s1) =>
    match _generate_traefik_forwardauth_config w with
    | .error e => .error e
    | .ok _ => .ok (.handled (_on_update_status w s1))

/-! ## Helper lemmas -/

/-- Looking up in a dict after a Python-style insert. -/
theorem lookup_dictInsert {A : Type} (k k1 : String) (v : A) (d : List (String × A)) :
    List.lookup k (dictInsert k1 v d) = if k = k1 then some v else List.lookup k d := by
  induction d with
  | nil =>
    by_cases hk : k = k1
    · simp [dictInsert, List.lookup, hk]
    · have hb : (k == k1) = false := beq_eq_false_iff_ne.mpr hk
      simp [dictInsert, List.lookup, hk, hb]
  | cons x d ih =>
    obtain ⟨k2, v2⟩ := x
    by_cases h : k2 = k1
    · subst h
      by_cases hk : k = k2
      · simp [dictInsert, List.lookup, hk]
      · have hb : (k == k2) = false := beq_eq_false_iff_ne.mpr hk
        simp [dictInsert, List.lookup, hk, hb]
    · by_cases hk : k = k2
      · subst hk
        have hk1 : ¬k = k1 := fun hh => h hh
        simp [dictInsert, h, List.lookup, hk1]
      · have hb : (k == k2) = false := beq_eq_false_iff_ne.mpr hk
        simp [dictInsert, h, List.lookup, hb, ih]

/-- Looking up in a Python dict comprehension finds the value of the last
pair carrying the key. -/
theorem lookup_foldl_dictInsert {A : Type} (k : String) (l acc : List (String × A)) :
    List.lookup k (l.foldl (fun d kv => dictInsert kv.1 kv.2 d) acc) =
      match l.reverse.find? (fun kv => kv.1 == k) with
      | some kv => some kv.2
      | none => List.lookup k acc := by
  induction l generalizing acc with
  | nil => simp
  | cons x l ih =>
    rw [List.foldl_cons, ih, List.reverse_cons, List.find?_append]
    cases hfind : l.reverse.find? (fun kv => kv.1 == k) with
    | some kv => simp [Option.or]
    | none =>
      by_cases hx : k = x.1
      · have hb : (x.1 == k) = true := by simp [hx]
        simp [Option.or, List.find?, hb, lookup_dictInsert, hx]
      · have hb : (x.1 == k) = false := beq_eq_false_iff_ne.mpr (fun hh => hx hh.symm)
        simp [Option.or, List.find?, hb, lookup_dictInsert, hx]

/-- `List.lookup` over `dictOfList` is last-write-wins. -/
theorem lookup_dictOfList {A : Type} (k : String) (l : List (String × A)) :
    List.lookup k (dictOfList l) =
      match l.reverse.find? (fun kv => kv.1 == k) with
      | some kv => some kv.2
      | none => none := by
  rw [dictOfList, lookup_foldl_dictInsert]
  cases l.reverse.find? (fun kv => kv.1 == k) <;> simp [List.lookup]

/-- Inserting a fresh key appends the binding. -/
theorem dictInsert_of_not_mem {A : Type} (k : String) (v : A) (d : List (String × A))
    (h : k ∉ d.map Prod.fst) : dictInsert k v d = d ++ [(k, v)] := by
  induction d with
  | nil => rfl
  | cons x d ih =>
    simp only [List.map_cons, List.mem_cons] at h
    push_neg at h
    have hne : ¬x.1 = k := fun hh => h.1 hh.symm
    simp [dictInsert, hne, ih h.2]

/-- Folding Python-dict insertion over pairwise fresh keys appends them in
order. -/
theorem foldl_dictInsert_nodup {A : Type} (l : List (String × A)) :
    ∀ acc : List (String × A), (acc.map Prod.fst ++ l.map Prod.fst).Nodup →
      l.foldl (fun d kv => dictInsert kv.1 kv.2 d) acc = acc ++ l := by
  induction l with
  | nil => intro acc _; simp
  | cons x l ih =>
    intro acc h
    have hx : x.1 ∉ acc.map Prod.fst := by
      intro hmem
      rcases List.nodup_append.mp h with ⟨_, _, hdis⟩
      exact hdis hmem (by simp)
    rw [List.foldl_cons, dictInsert_of_not_mem x.1 x.2 acc hx]
    have h2 : ((acc ++ [(x.1, x.2)]).map Prod.fst ++ l.map Prod.fst).Nodup := by
      simpa [List.append_assoc] using h
    rw [ih (acc ++ [(x.1, x.2)]) h2]
    simp

/-- A dict comprehension over pairwise distinct keys keeps the pairs as
given. -/
theorem dictOfList_nodup {A : Type} (l : List (String × A))
    (h : (l.map Prod.fst).Nodup) : dictOfList l = l := by
  have := foldl_dictInsert_nodup l [] (by simpa using h)
  simpa [dictOfList] using this

/-! ## C6 - rule derivation -/

/-- C6 counterexample: the claim says every URL with no extractable hostname
fails with `RuleDerivationError` carrying that URL.  At `http://[abc` the
stdlib `urlsplit` raises `ValueError("Invalid IPv6 URL")` (mismatched
bracket in the netloc), so `generate_rule_from_url` fails with that
`ValueError`, not with `RuleDerivationError`, and returns no Host rule. -/
theorem c6_counterexample :
    generate_rule_from_url "http://[abc" = .error (.valueError "Invalid IPv6 URL") ∧
    (Except.error (.valueError "Invalid IPv6 URL") : Except RenderErr String) ≠
      .error (.ruleDerivation "http://[abc") := by
  constructor
  · rfl
  · decide

/-- C6 (amended): `generate_rule_from_url` is a pure function on the url
string.  When the netloc has a mismatched bracket, `urlparse` raises
`ValueError("Invalid IPv6 URL")`, which propagates.  On a bracket-free
netloc (where every CPython 3 agrees): when `urlparse` extracts a hostname
`h` the function returns the single-argument Host matcher wrapping `h`, and
when no hostname is extractable it fails with `RuleDerivationError` carrying
that url. -/
theorem c6_generate_rule (url : String) :
    ((netlocOf url.data).contains '[' = false →
      (∀ h, urlparseHostname url = .ok (some h) →
        generate_rule_from_url url = .ok ("Host(`" ++ h ++ "`)")) ∧
      (urlparseHostname url = .ok none →
        generate_rule_from_url url = .error (.ruleDerivation url))) ∧
    (∀ msg, urlparseHostname url = .error msg →
      generate_rule_from_url url = .error (.valueError msg)) := by
  refine ⟨fun _ => ⟨?_, ?_⟩, ?_⟩
  · intro h hh
    simp [generate_rule_from_url, hh]
  · intro hh
    simp [generate_rule_from_url, hh]
  · intro msg hh
    simp [generate_rule_from_url, hh]

/-- C6 witness: the specification's two examples plus the ValueError url. -/
theorem c6_witness :
    generate_rule_from_url "http://foo.bar/x" = .ok "Host(`foo.bar`)" ∧
    generate_rule_from_url "not a url" = .error (.ruleDerivation "not a url") ∧
    generate_rule_from_url "http://[abc" = .error (.valueError "Invalid IPv6 URL") := by
  refine ⟨?_, ?_, ?_⟩
  · exact (((c6_generate_rule "http://foo.bar/x").1 (by decide)).1 "foo.bar"
      (by decide)).trans (by rfl)
  · exact ((c6_generate_rule "not a url").1 (by decide)).2 (by decide)
  · exact (c6_generate_rule "http://[abc").2 "Invalid IPv6 URL" (by decide)

/-! ## C7 - shape and totality of the merge -/

/-- C7: the merge is total; on the empty sequence both mappings are empty,
and every descriptor contributes a router entry
`\x7brule, service, entryPoints: [web], middlewares: [oathkeeper]\x7d` under
`juju-<id>-router` and a service entry
`\x7bloadBalancer: \x7bservers: [\x7burl\x7d]\x7d\x7d` under
`juju-<id>-service`, nested inside `\x7bhttp: \x7brouters, services\x7d\x7d`. -/
theorem c7_merge_shape (configs : List RouteConfig) :
    _merge_traefik_configs (configs.map _generate_traefik_unit_config) =
      { http :=
        { routers := dictOfList (configs.map fun c =>
            ("juju-" ++ c.id_ ++ "-router",
             { rule := c.rule, service := "juju-" ++ c.id_ ++ "-service",
               entryPoints := ["web"], middlewares := ["oathkeeper"] })),
          services := dictOfList (configs.map fun c =>
            ("juju-" ++ c.id_ ++ "-service",
             { loadBalancer := { servers := [{ url := c.root_url }] } })) } } ∧
    _merge_traefik_configs [] = { http := { routers := [], services := [] } } := by
  constructor
  · unfold _merge_traefik_configs
    rw [List.map_map, List.map_map]
    rfl
  · rfl

/-! ## C4 - colliding ids in the merge -/

/-- C4 counterexample: two descriptors sharing an id but differing in url and
rule merge to the same aggregate as the second descriptor alone - the first
is silently overwritten (last-write-wins), with no deduplication and no
error. -/
theorem c4_counterexample :
    _merge_traefik_configs
        [_generate_traefik_unit_config
           { root_url := "http://one", rule := "Host(`one`)", id_ := "u-0-m" },
         _generate_traefik_unit_config
           { root_url := "http://two", rule := "Host(`two`)", id_ := "u-0-m" }] =
      _merge_traefik_configs
        [_generate_traefik_unit_config
           { root_url := "http://two", rule := "Host(`two`)", id_ := "u-0-m" }] ∧
    ({ root_url := "http://one", rule := "Host(`one`)", id_ := "u-0-m" } : RouteConfig) ≠
      { root_url := "http://two", rule := "Host(`two`)", id_ := "u-0-m" } := by
  constructor
  · rfl
  · decide

/-- C4 (amended): the merge is last-write-wins on colliding keys: a lookup in
the merged routers (resp. services) mapping returns the router (resp.
service) of the last descriptor whose router (service) name matches, so a
descriptor whose id collides with a later one is silently dropped. -/
theorem c4_merge_last_write_wins (configs : List UnitConfig) (name : String) :
    List.lookup name (_merge_traefik_configs configs).http.routers =
      (configs.reverse.find? (fun c => c.router_name == name)).map UnitConfig.router ∧
    List.lookup name (_merge_traefik_configs configs).http.services =
      (configs.reverse.find? (fun c => c.service_name == name)).map UnitConfig.service := by
  constructor
  · show List.lookup name (dictOfList (configs.map fun c => (c.router_name, c.router))) = _
    rw [lookup_dictOfList, ← List.map_reverse, List.find?_map]
    have hfun : ((fun kv : String × Router => kv.1 == name) ∘
        fun c : UnitConfig => (c.router_name, c.router)) =
        fun c : UnitConfig => c.router_name == name := rfl
    rw [hfun]
    cases configs.reverse.find? (fun c : UnitConfig => c.router_name == name) <;> simp
  · show List.lookup name (dictOfList (configs.map fun c => (c.service_name, c.service))) = _
    rw [lookup_dictOfList, ← List.map_reverse, List.find?_map]
    have hfun : ((fun kv : String × ServiceSpec => kv.1 == name) ∘
        fun c : UnitConfig => (c.service_name, c.service)) =
        fun c : UnitConfig => c.service_name == name := rfl
    rw [hfun]
    cases configs.reverse.find? (fun c : UnitConfig => c.service_name == name) <;> simp

/-! ## Template rendering lemmas (for C1, C5, C8) -/

/-- Whether a render result is the undefined-variable failure
(`TemplateKeyError`). -/
def isTemplateKeyErr {A : Type} : Except RenderErr A → Bool
  | .error (.templateKey _ _) => true
  | _ => false

/-- The placeholder names occurring in a parsed template. -/
def templateVarsOf (items : List TItem) : List String :=
  items.filterMap fun it =>
    match it with
    | .var v => some v
    | .lit _ => none

/-- Rendering a parsed template either succeeds or fails on a placeholder
that is not among the provided variables. -/
theorem renderItems_ok_or_key (t m u a : String) (items : List TItem) :
    (∃ s, renderItems t m u a items = .ok s) ∨
    (∃ k, k ∈ templateVarsOf items ∧ lookupVar m u a k = none ∧
      renderItems t m u a items = .error (.templateKey t k)) := by
  induction items with
  | nil => exact .inl ⟨"", rfl⟩
  | cons it rest ih =>
    cases it with
    | lit c =>
      rcases ih with ⟨s, hs⟩ | ⟨k, hk, hn, he⟩
      · refine .inl ⟨⟨c :: s.data⟩, ?_⟩
        simp [renderItems, hs, Except.map]
      · refine .inr ⟨k, ?_, hn, ?_⟩
        · simpa [templateVarsOf] using hk
        · simp [renderItems, he, Except.map]
    | var v =>
      cases hv : lookupVar m u a v with
      | none =>
        refine .inr ⟨v, ?_, hv, ?_⟩
        · simp [templateVarsOf]
        · simp [renderItems, hv]
      | some val =>
        rcases ih with ⟨s, hs⟩ | ⟨k, hk, hn, he⟩
        · refine .inl ⟨val ++ s, ?_⟩
          simp [renderItems, hv, hs, Except.map]
        · refine .inr ⟨k, ?_, hn, ?_⟩
          · simp only [templateVarsOf, List.filterMap_cons]
            simp only [templateVarsOf] at hk
            exact List.mem_cons_of_mem v hk
          · simp [renderItems, hv, he, Except.map]

/-- The three recognised placeholder names all resolve. -/
theorem lookupVar_of_juju (m u a v : String)
    (h : v = "juju_model" ∨ v = "juju_application" ∨ v = "juju_unit") :
    lookupVar m u a v ≠ none := by
  rcases h with h | h | h <;> subst h <;> simp [lookupVar]

/-- A parsed template whose placeholders are all recognised renders without
error. -/
theorem renderItems_ok_of_vars (t m u a : String) (items : List TItem)
    (h : ∀ v ∈ templateVarsOf items,
      v = "juju_model" ∨ v = "juju_application" ∨ v = "juju_unit") :
    ∃ s, renderItems t m u a items = .ok s := by
  rcases renderItems_ok_or_key t m u a items with hok | ⟨k, hk, hn, _⟩
  · exact hok
  · exact absurd hn (lookupVar_of_juju m u a k (h k hk))

/-- A parseable template over recognised placeholders renders without
error. -/
theorem renderTemplate_ok_of_vars (m u a t : String) (items : List TItem)
    (hp : parseTemplate t = some items)
    (h : ∀ v ∈ templateVarsOf items,
      v = "juju_model" ∨ v = "juju_application" ∨ v = "juju_unit") :
    ∃ s, renderTemplate m u a t = .ok s := by
  obtain ⟨s, hs⟩ := renderItems_ok_of_vars t m u a items h
  exact ⟨s, by simp [renderTemplate, hp, hs]⟩

/-- `_RouteConfig.render` with a parseable `root_url` and parseable rule,
whose rendered url does not trip `urlparse`'s `ValueError`, can only
succeed, fail on an undefined variable, or fail deriving the rule. -/
theorem render_ok_key_or_deriv (c : _RouteConfig) (m u a ru : String)
    (hru : c.root_url = some ru) (hp : (parseTemplate ru).isSome = true)
    (hr : ∀ s, c.rule = some s → (parseTemplate s).isSome = true)
    (hnoval : ∀ url, renderTemplate m u a ru = .ok url →
      ∀ msg, urlparseHostname url ≠ .error msg) :
    (∃ rc, c.render m u a = .ok rc) ∨
    (∃ t k, c.render m u a = .error (.templateKey t k)) ∨
    (∃ url, c.render m u a = .error (.ruleDerivation url)) := by
  obtain ⟨items, hitems⟩ := Option.isSome_iff_exists.mp hp
  unfold _RouteConfig.render
  rcases renderItems_ok_or_key ru m u a items with ⟨s, hs⟩ | ⟨k, _, _, he⟩
  · by_cases hpt : pyTruthy c.rule
    · cases hcrule : c.rule with
      | none => rw [hcrule] at hpt; simp [pyTruthy] at hpt
      | some r =>
        rw [hcrule] at hpt
        obtain ⟨itemsr, hitemsr⟩ := Option.isSome_iff_exists.mp (hr r hcrule)
        rcases renderItems_ok_or_key r m u a itemsr with ⟨sr, hsr⟩ | ⟨kr, _, _, her⟩
        · refine .inl ⟨{ root_url := s, rule := sr, id_ := u ++ "-" ++ m }, ?_⟩
          simp [hru, renderTemplate, hitems, hs, hcrule, hpt, hitemsr, hsr]
        · refine .inr (.inl ⟨r, kr, ?_⟩)
          simp [hru, renderTemplate, hitems, hs, hcrule, hpt, hitemsr, her]
    · have hrt : renderTemplate m u a ru = .ok s := by
        simp [renderTemplate, hitems, hs]
      cases hh : urlparseHostname s with
      | error msg => exact absurd hh (hnoval s hrt msg)
      | ok oh =>
        cases oh with
        | none =>
          refine .inr (.inr ⟨s, ?_⟩)
          simp [hru, renderTemplate, hitems, hs, hpt, generate_rule_from_url, hh]
        | some h =>
          refine .inl ⟨{ root_url := s, rule := "Host(`" ++ h ++ "`)", id_ := u ++ "-" ++ m }, ?_⟩
          simp [hru, renderTemplate, hitems, hs, hpt, generate_rule_from_url, hh]
  · refine .inr (.inl ⟨ru, k, ?_⟩)
    simp [hru, renderTemplate, hitems, he]

/-- C1 counterexample: the template placeholder set claimed by the
specification is wrong.  A template whose only placeholder is `model_name`
(one of `\x7bmodel_name, unit_name, app_name\x7d`), rendered with a complete
context, fails with the undefined-variable error `TemplateKeyError`: the
variables the charm actually provides are named `juju_model`,
`juju_application` and `juju_unit`. -/
theorem c1_counterexample :
    _RouteConfig.render { root_url := some "\x7b\x7b model_name \x7d\x7d", rule := none }
      "m" "u" "a" =
      .error (.templateKey "\x7b\x7b model_name \x7d\x7d" "model_name") := by rfl

/-- C1 (amended): for every parseable `root_url` template whose placeholders
are drawn only from the three recognised names `juju_model`,
`juju_application`, `juju_unit` (under which the charm supplies `model_name`,
`app_name` and `unit_name`), and likewise for the rule when present,
`_RouteConfig.render` with a complete context never fails with the
undefined-variable error (it may still fail with `RuleDerivationError` when
the rule is absent and the rendered url has no hostname). -/
theorem c1_render_no_undefined_variable
    (ru : String) (rl : Option String) (m u a : String) (items : List TItem)
    (hparse : parseTemplate ru = some items)
    (hvars : ∀ v ∈ templateVarsOf items,
      v = "juju_model" ∨ v = "juju_application" ∨ v = "juju_unit")
    (hrule : rl = none ∨ ∃ r itemsr, rl = some r ∧ parseTemplate r = some itemsr ∧
      ∀ v ∈ templateVarsOf itemsr,
        v = "juju_model" ∨ v = "juju_application" ∨ v = "juju_unit") :
    isTemplateKeyErr (_RouteConfig.render { root_url := some ru, rule := rl } m u a) = false := by
  obtain ⟨url, hurl⟩ := renderItems_ok_of_vars ru m u a items hvars
  unfold _RouteConfig.render
  rcases hrule with rfl | ⟨r, itemsr, rfl, hpr, hvr⟩
  · simp only [renderTemplate, hparse, hurl]
    cases hh : urlparseHostname url with
    | error msg => simp [pyTruthy, generate_rule_from_url, hh, isTemplateKeyErr]
    | ok oh =>
      cases oh <;> simp [pyTruthy, generate_rule_from_url, hh, isTemplateKeyErr]
  · obtain ⟨rs, hrs⟩ := renderItems_ok_of_vars r m u a itemsr hvr
    by_cases hre : r.isEmpty
    · simp only [renderTemplate, hparse, hurl]
      have hpt : pyTruthy (some r) = false := by simp [pyTruthy, hre]
      cases hh : urlparseHostname url with
      | error msg => simp [hpt, generate_rule_from_url, hh, isTemplateKeyErr]
      | ok oh =>
        cases oh <;> simp [hpt, generate_rule_from_url, hh, isTemplateKeyErr]
    · simp only [renderTemplate, hparse, hurl]
      have hpt : pyTruthy (some r) = true := by simp [pyTruthy, hre]
      simp [hpt, renderTemplate, hpr, hrs, isTemplateKeyErr]

/-- C1 witness: the round-trip template of the specification, written with
the recognised variable names, renders with no undefined-variable error; in
fact it renders fully, to the resolved url, the derived Host rule and the
dash-joined id. -/
theorem c1_witness :
    isTemplateKeyErr (_RouteConfig.render
      { root_url := some "http://foo.bar/\x7b\x7bjuju_model\x7d\x7d-\x7b\x7bjuju_unit\x7d\x7d",
        rule := none }
      "testing" "remote-0" "remote") = false ∧
    _RouteConfig.render
      { root_url := some "http://foo.bar/\x7b\x7bjuju_model\x7d\x7d-\x7b\x7bjuju_unit\x7d\x7d",
        rule := none }
      "testing" "remote-0" "remote" =
      .ok { root_url := "http://foo.bar/testing-remote-0", rule := "Host(`foo.bar`)",
            id_ := "remote-0-testing" } := by
  constructor
  · exact c1_render_no_undefined_variable
      "http://foo.bar/\x7b\x7bjuju_model\x7d\x7d-\x7b\x7bjuju_unit\x7d\x7d" none
      "testing" "remote-0" "remote"
      ((parseTemplate "http://foo.bar/\x7b\x7bjuju_model\x7d\x7d-\x7b\x7bjuju_unit\x7d\x7d").getD [])
      (by rfl) (by decide) (Or.inl rfl)
  · rfl

/-! ## C5 - totality of the validity check -/

/-- The boolean `_check_var` part of `is_valid`: check `root_url` alone when
the rule is falsy, else both fields. -/
def is_valid_checks (c : _RouteConfig) : Bool :=
  if !pyTruthy c.rule then _check_var c.root_url
  else _check_var c.rule && _check_var c.root_url

/-- Evaluation shape of `is_valid` (definitional). -/
theorem is_valid_eq (c : _RouteConfig) :
    c.is_valid =
      if pyTruthy c.root_url then
        match c.render "foo" "bar" "baz" with
        | .error (.templateKey _ _) => .ok false
        | .error (.ruleDerivation _) => .ok false
        | .error e => .error e
        | .ok _ => .ok (is_valid_checks c)
      else .ok (is_valid_checks c) := rfl

/-- C8 counterexample: with a whitespace-padded `root_url`, `is_valid` is
claimed to return false regardless of the rule field; but with a
syntactically malformed rule template the dummy render raises
`TemplateSyntaxError`, which `is_valid` does not catch, so it raises instead
of returning false. -/
theorem c8_counterexample :
    _RouteConfig.is_valid { root_url := some " http://x ", rule := some "\x7b\x7b" } =
      .error (.malformedTemplate "\x7b\x7b") := by rfl

set_option maxRecDepth 8192 in
/-- C8 (amended): with `root_url = " http://x "`, `is_valid` returns false
for every rule field whose template is syntactically well formed (parseable);
and with the rule absent, `is_valid` returns true exactly when the
dummy-context render succeeds and `root_url` is non-empty, not
whitespace-only, and has no surrounding whitespace. -/
theorem c8_whitespace_invalid :
    (∀ rl : Option String, (∀ r, rl = some r → (parseTemplate r).isSome = true) →
      _RouteConfig.is_valid { root_url := some " http://x ", rule := rl } = .ok false) ∧
    (∀ ru : String,
      (_RouteConfig.is_valid { root_url := some ru, rule := none } = .ok true ↔
        (∃ rc, _RouteConfig.render { root_url := some ru, rule := none } "foo" "bar" "baz"
          = .ok rc) ∧
        ru ≠ "" ∧ pyIsSpace ru = false ∧ ru = pyStrip ru)) := by
  constructor
  · intro rl hrl
    have hout : pyTruthy (some " http://x ") = true := by decide
    have hcv : _check_var (some " http://x ") = false := by decide
    rw [is_valid_eq]
    have hnoval : ∀ url, renderTemplate "foo" "bar" "baz" " http://x " = .ok url →
        ∀ msg, urlparseHostname url ≠ .error msg := by
      intro url hrt msg hh
      have hts : renderTemplate "foo" "bar" "baz" " http://x " = .ok " http://x " := rfl
      cases Except.ok.inj (hts.symm.trans hrt)
      rw [show urlparseHostname " http://x " = .ok none from by decide] at hh
      exact Except.noConfusion hh
    rcases render_ok_key_or_deriv { root_url := some " http://x ", rule := rl }
        "foo" "bar" "baz" " http://x " rfl (by decide) hrl hnoval with
      ⟨rc, h⟩ | ⟨t, k, h⟩ | ⟨url, h⟩ <;>
      cases hb : pyTruthy rl <;>
      simp [hout, h, is_valid_checks, hb, hcv]
  · intro ru
    by_cases hre : ru = ""
    · subst hre
      constructor
      · intro h
        exact absurd h (by decide)
      · rintro ⟨-, hne, -, -⟩
        exact absurd rfl hne
    · have hie : ru.isEmpty = false := by
        cases hb : ru.isEmpty
        · rfl
        · exact absurd ((String.isEmpty_iff ru).mp hb) hre
      have hpt : pyTruthy (some ru) = true := by simp [pyTruthy, hie]
      rw [is_valid_eq, if_pos hpt]
      cases hrend : _RouteConfig.render { root_url := some ru, rule := none }
          "foo" "bar" "baz" with
      | error e =>
        cases e <;> simp [hrend]
      | ok rc =>
        simp only [hrend]
        constructor
        · intro h
          have hchecks : is_valid_checks { root_url := some ru, rule := none } = true := by
            have := Except.ok.inj h
            exact this
          refine ⟨⟨rc, rfl⟩, hre, ?_, ?_⟩ <;>
          · simp [is_valid_checks, _check_var, _is_not_empty, pyTruthy, hie] at hchecks
            first
            | exact hchecks.1
            | exact hchecks.2
        · rintro ⟨-, -, hsp, hstrip⟩
          have hchecks : is_valid_checks { root_url := some ru, rule := none } = true := by
            simp only [is_valid_checks, _check_var, _is_not_empty, pyTruthy,
              Option.getD_some, Bool.not_false, if_true]
            simp [hie, hsp, Bool.and_eq_true, decide_eq_true_eq]
            exact hstrip
          rw [hchecks]

/-! ## C9 - router/service correspondence in the merge -/

/-- Cancel a common prefix and suffix of string concatenation. -/
theorem string_affix_cancel (p s a b : String)
    (h : p ++ a ++ s = p ++ b ++ s) : a = b := by
  have hd : p.data ++ (a.data ++ s.data) = p.data ++ (b.data ++ s.data) := by
    have h2 := congrArg String.data h
    simpa [String.data_append, List.append_assoc] using h2
  exact String.ext (List.append_cancel_right (List.append_cancel_left hd))

/-- Lookup in an association list built from a keyed map with pairwise
distinct keys. -/
theorem lookup_map_pair {A B : Type} (f : A → String) (g : A → B) (l : List A)
    (hnd : (l.map f).Nodup) (a : A) (ha : a ∈ l) :
    List.lookup (f a) (l.map fun x => (f x, g x)) = some (g a) := by
  induction l with
  | nil => cases ha
  | cons x l ih =>
    rcases List.mem_cons.mp ha with rfl | ha2
    · simp [List.lookup]
    · have hne : f a ≠ f x := by
        intro he
        have hmem : f a ∈ l.map f := List.mem_map_of_mem f ha2
        rw [he] at hmem
        exact (List.nodup_cons.mp (by simpa using hnd)).1 hmem
      have hb : (f a == f x) = false := beq_eq_false_iff_ne.mpr hne
      simp only [List.map_cons, List.lookup, hb]
      exact ih (List.nodup_cons.mp (by simpa using hnd)).2 ha2

/-- C9: merging descriptors with pairwise distinct ids yields router and
service mappings in one-to-one correspondence: the router keys are exactly
`juju-<id>-router` and the service keys exactly `juju-<id>-service`, each
occurring once, and each router entry's `service` field is exactly its
descriptor's service key, which is present in the services mapping. -/
theorem c9_merge_bijection (configs : List RouteConfig) (T : TraefikConfig)
    (hT : T = _merge_traefik_configs (configs.map _generate_traefik_unit_config))
    (hids : (configs.map RouteConfig.id_).Nodup) :
    T.http.routers.map Prod.fst = configs.map (fun c => "juju-" ++ c.id_ ++ "-router") ∧
    T.http.services.map Prod.fst = configs.map (fun c => "juju-" ++ c.id_ ++ "-service") ∧
    (T.http.routers.map Prod.fst).Nodup ∧
    (T.http.services.map Prod.fst).Nodup ∧
    ∀ c ∈ configs,
      List.lookup ("juju-" ++ c.id_ ++ "-router") T.http.routers =
        some { rule := c.rule, service := "juju-" ++ c.id_ ++ "-service",
               entryPoints := ["web"], middlewares := ["oathkeeper"] } ∧
      List.lookup ("juju-" ++ c.id_ ++ "-service") T.http.services =
        some { loadBalancer := { servers := [{ url := c.root_url }] } } := by
  subst hT
  have hndR : (configs.map (fun c => "juju-" ++ c.id_ ++ "-router")).Nodup := by
    have heq : configs.map (fun c => "juju-" ++ c.id_ ++ "-router") =
        (configs.map RouteConfig.id_).map (fun i => "juju-" ++ i ++ "-router") := by
      rw [List.map_map]; rfl
    rw [heq]
    exact hids.map (fun a b h => string_affix_cancel "juju-" "-router" a b h)
  have hndS : (configs.map (fun c => "juju-" ++ c.id_ ++ "-service")).Nodup := by
    have heq : configs.map (fun c => "juju-" ++ c.id_ ++ "-service") =
        (configs.map RouteConfig.id_).map (fun i => "juju-" ++ i ++ "-service") := by
      rw [List.map_map]; rfl
    rw [heq]
    exact hids.map (fun a b h => string_affix_cancel "juju-" "-service" a b h)
  have hroutersEq : (_merge_traefik_configs
      (configs.map _generate_traefik_unit_config)).http.routers =
      configs.map (fun c => ("juju-" ++ c.id_ ++ "-router",
        ({ rule := c.rule, service := "juju-" ++ c.id_ ++ "-service",
           entryPoints := ["web"], middlewares := ["oathkeeper"] } : Router))) := by
    show dictOfList ((configs.map _generate_traefik_unit_config).map
        (fun u => (u.router_name, u.router))) = _
    rw [List.map_map]
    exact dictOfList_nodup _ (by rw [List.map_map]; exact hndR)
  have hservicesEq : (_merge_traefik_configs
      (configs.map _generate_traefik_unit_config)).http.services =
      configs.map (fun c => ("juju-" ++ c.id_ ++ "-service",
        ({ loadBalancer := { servers := [{ url := c.root_url }] } } : ServiceSpec))) := by
    show dictOfList ((configs.map _generate_traefik_unit_config).map
        (fun u => (u.service_name, u.service))) = _
    rw [List.map_map]
    exact dictOfList_nodup _ (by rw [List.map_map]; exact hndS)
  refine ⟨?_, ?_, ?_, ?_, ?_⟩
  · rw [hroutersEq, List.map_map]
    rfl
  · rw [hservicesEq, List.map_map]
    rfl
  · rw [hroutersEq, List.map_map]
    exact hndR
  · rw [hservicesEq, List.map_map]
    exact hndS
  · intro c hc
    constructor
    · rw [hroutersEq]
      exact lookup_map_pair (fun c => "juju-" ++ c.id_ ++ "-router") _ configs hndR c hc
    · rw [hservicesEq]
      exact lookup_map_pair (fun c => "juju-" ++ c.id_ ++ "-service") _ configs hndS c hc

/-- C9 witness: two descriptors with distinct ids. -/
theorem c9_witness :
    ((_merge_traefik_configs ([{ root_url := "http://a", rule := "Host(`a`)", id_ := "u-0-m" },
        { root_url := "http://b", rule := "Host(`b`)", id_ := "u-1-m" }].map
        _generate_traefik_unit_config)).http.routers.map Prod.fst).Nodup ∧
    List.lookup "juju-u-0-m-router"
      (_merge_traefik_configs ([{ root_url := "http://a", rule := "Host(`a`)", id_ := "u-0-m" },
        { root_url := "http://b", rule := "Host(`b`)", id_ := "u-1-m" }].map
        _generate_traefik_unit_config)).http.routers =
      some { rule := "Host(`a`)", service := "juju-u-0-m-service",
             entryPoints := ["web"], middlewares := ["oathkeeper"] } := by
  have h := c9_merge_bijection
    [{ root_url := "http://a", rule := "Host(`a`)", id_ := "u-0-m" },
     { root_url := "http://b", rule := "Host(`b`)", id_ := "u-1-m" }] _ rfl (by decide)
  refine ⟨h.2.2.1, ?_⟩
  have h2 := (h.2.2.2.2 { root_url := "http://a", rule := "Host(`a`)", id_ := "u-0-m" }
    (by simp)).1
  exact h2

/-- C8 witness: a padded `root_url` with a well-formed rule gives false; an
unpadded plain url with no rule gives true. -/
theorem c8_witness :
    _RouteConfig.is_valid { root_url := some " http://x ", rule := some "x" } = .ok false ∧
    _RouteConfig.is_valid { root_url := some "http://x", rule := none } = .ok true := by
  constructor
  · exact c8_whitespace_invalid.1 (some "x") (fun r hr => by cases hr; decide)
  · exact (c8_whitespace_invalid.2 "http://x").mpr
      ⟨⟨_, by rfl⟩, by decide, by decide, by decide⟩

/-! ## C10 - per-unit configuration from relation data -/

/-- `takeWhile` over a list whose elements all satisfy the predicate,
followed by a stopping element. -/
theorem takeWhile_append_stop {p : Char → Bool} (l1 l2 : List Char) (c : Char)
    (h1 : ∀ x ∈ l1, p x = true) (hc : p c = false) :
    (l1 ++ c :: l2).takeWhile p = l1 := by
  induction l1 with
  | nil => simp [List.takeWhile_cons, hc]
  | cons y l ih =>
    have hy : p y = true := h1 y (by simp)
    simp only [List.cons_append, List.takeWhile_cons, hy, if_true]
    rw [ih (fun x hx => h1 x (by simp [hx]))]

/-- The data of `app ++ "/" ++ suffix`. -/
theorem data_app_slash (app suffix : String) :
    (app ++ "/" ++ suffix).data = app.data ++ '/' :: suffix.data := by
  simp [String.data_append]

/-- A name of the form `app ++ "/" ++ suffix` contains a slash. -/
theorem contains_slash_append (app suffix : String) :
    (app ++ "/" ++ suffix).data.contains '/' = true := by
  rw [data_app_slash]
  exact List.elem_eq_true_of_mem (by simp)

/-- The segment before the first slash of `app ++ "/" ++ suffix` is `app`
when `app` itself has no slash. -/
theorem splitSlashHead_append (app suffix : String)
    (happ : app.data.contains '/' = false) :
    pySplitSlashHead (app ++ "/" ++ suffix) = app := by
  have hnm : '/' ∉ app.data := by
    intro hm
    have h2 : app.data.contains '/' = true := List.elem_eq_true_of_mem hm
    rw [h2] at happ
    cases happ
  unfold pySplitSlashHead
  rw [data_app_slash, takeWhile_append_stop]
  · intro x hx
    have hxne : x ≠ '/' := fun he => hnm (he ▸ hx)
    simpa using hxne
  · decide

/-- C10: `_config_for_unit` asserts the requester's unit name is present and
contains a slash (failing with an assertion error otherwise); for a name of
the form `app/suffix` with no slash in `app`, it renders with the unit name
slash-normalised to dashes and the app name equal to the segment before the
first slash, converting any rendering exception. -/
theorem c10_config_for_unit (cfg : _RouteConfig) (model : String) :
    (_config_for_unit cfg { name := none, model := model } = .error .assertionError) ∧
    (∀ n : String, n.data.contains '/' = false →
      _config_for_unit cfg { name := some n, model := model } = .error .assertionError) ∧
    (∀ app suffix : String, app.data.contains '/' = false →
      _config_for_unit cfg { name := some (app ++ "/" ++ suffix), model := model } =
        (cfg.render model (pyReplaceSlash (app ++ "/" ++ suffix)) app).mapError
          CharmErr.renderErr) := by
  refine ⟨rfl, ?_, ?_⟩
  · intro n hn
    have hnm : ¬('/' ∈ n.data) := by
      intro hm
      have h2 : n.data.contains '/' = true := List.elem_eq_true_of_mem hm
      rw [h2] at hn
      cases hn
    simp [_config_for_unit, hnm]
  · intro app suffix happ
    have hconta := contains_slash_append app suffix
    have hsplit := splitSlashHead_append app suffix happ
    simp only [_config_for_unit, hconta, Bool.not_true, Bool.false_eq_true, if_false, hsplit]
    cases hrend : cfg.render model (pyReplaceSlash (app ++ "/" ++ suffix)) app <;>
      simp [Except.mapError, hrend]

/-- C10 witness: a well-formed unit name renders; a name without a slash hits
the assertion. -/
theorem c10_witness :
    _config_for_unit { root_url := some "http://x", rule := none }
      { name := some ("remote" ++ "/" ++ "0"), model := "testing" } =
      .ok { root_url := "http://x", rule := "Host(`x`)", id_ := "remote-0-testing" } ∧
    _config_for_unit { root_url := some "http://x", rule := none }
      { name := some "remote", model := "testing" } = .error .assertionError := by
  constructor
  · have h := (c10_config_for_unit { root_url := some "http://x", rule := none } "testing").2.2
      "remote" "0" (by decide)
    exact h.trans (by decide)
  · exact (c10_config_for_unit { root_url := some "http://x", rule := none } "testing").2.1
      "remote" (by decide)

/-! ## C2 and C3 - the status reconciliation state machine -/

/-- `_on_update_status` never changes the sticky flag. -/
theorem on_update_status_flag (w : World) (s : CharmState) :
    (_on_update_status w s).invalid_config = s.invalid_config := by
  unfold _on_update_status
  cases h : s.invalid_config
  · simp only [h, Bool.false_eq_true, if_false]
    by_cases h1 : access_rules_configured w <;>
      by_cases h2 : w.ipuRelationExists <;>
        by_cases h3 : w.ipuRelationReady <;>
          simp [h1, h2, h3, h]
  · simp [h]

/-- The readiness check when the route config is invalid: the flag is set and
the unit blocked. -/
theorem config_ready_of_valid_false (w : World) (s : CharmState)
    (hv : _RouteConfig.is_valid w.routeCfg = .ok false) :
    _is_traefik_config_ready w s = .ok (false,
      { invalid_config := true,
        status := .blocked "Invalid or missing config. See logs for more info" }) := by
  unfold _is_traefik_config_ready _is_traefik_configuration_valid
  rw [hv]

/-- The readiness check when the route config is valid: the flag is cleared
and readiness is the conjunction of relation existence and readiness. -/
theorem config_ready_of_valid_true (w : World) (s : CharmState)
    (hv : _RouteConfig.is_valid w.routeCfg = .ok true) :
    _is_traefik_config_ready w s =
      .ok (w.ipuRelationExists && w.ipuRelationReady,
        { s with invalid_config := false }) := by
  unfold _is_traefik_config_ready _is_traefik_configuration_valid
  rw [hv]
  by_cases h2 : w.ipuRelationExists <;> by_cases h3 : w.ipuRelationReady <;>
    simp [h2, h3]

/-- The readiness check propagates an uncaught validity exception. -/
theorem config_ready_of_valid_error (w : World) (s : CharmState) (e : RenderErr)
    (hv : _RouteConfig.is_valid w.routeCfg = .error e) :
    _is_traefik_config_ready w s = .error (.renderErr e) := by
  unfold _is_traefik_config_ready _is_traefik_configuration_valid
  rw [hv]

/-- The world of the C2 counterexample: invalid access-rules JSON together
with a valid route config, no ingress relation. -/
def c2World : World :=
  { access_rules := some "not json"
    root_url := some "http://x"
    rule := none
    ipuRelationExists := false
    ipuRelationReady := false
    readyUnitData := [] }

/-- The charm state after the C2 counterexample's first event. -/
def c2Mid : CharmState :=
  { invalid_config := true, status := .blocked "Invalid json configuration, see logs" }

/-- The charm state after the C2 counterexample's second event: the sticky
flag is cleared. -/
def c2End : CharmState :=
  { invalid_config := false, status := .blocked "Invalid json configuration, see logs" }

/-- C2 counterexample: a config-changed event with non-JSON access rules sets
the sticky flag (rule 1); the very next ingress-data event clears the flag,
although the access-rules JSON is still invalid and is never re-validated on
that path - only the route-template check runs, so the flag set by rule 1 is
cleared by the rule 3 check, contradicting the claim. -/
theorem c2_counterexample :
    jsonOk "not json" = false ∧
    _on_config_changed jsonOk c2World { invalid_config := false, status := .unchanged } =
      .ok c2Mid ∧
    c2Mid.invalid_config = true ∧
    _on_ingress_data_provided c2World c2Mid = .ok (.deferred c2End) ∧
    c2End.invalid_config = false := by
  refine ⟨rfl, rfl, rfl, rfl, rfl⟩

/-- C2 (amended): once the sticky flag is set, an event step that returns
normally clears it only when the route-template validity check re-runs and
passes during that step - regardless of which rule set the flag; in a
config-changed step with access rules configured, additionally the JSON must
have parsed.  (The JSON check alone never clears the flag across a step, and
the route check clears a flag set by the JSON check, as the counterexample
shows.) -/
theorem c2_flag_cleared_only_by_revalidation
    (jsonLoads : String → Bool) (w : World) (s s1 : CharmState)
    (hstep : (∃ r, _on_ingress_data_provided w s = .ok r ∧ r.state = s1) ∨
      _on_config_changed jsonLoads w s = .ok s1)
    (hflag : s1.invalid_config = false) :
    _RouteConfig.is_valid w.routeCfg = .ok true ∧
    (_on_config_changed jsonLoads w s = .ok s1 →
      access_rules_configured w = true →
      jsonLoads (w.access_rules.getD "") = true) := by
  have hccjson : _on_config_changed jsonLoads w s = .ok s1 →
      access_rules_configured w = true →
      jsonLoads (w.access_rules.getD "") = true := by
    intro hcc hconf
    by_cases hjson : jsonLoads (w.access_rules.getD "") = true
    · exact hjson
    · exfalso
      unfold _on_config_changed at hcc
      rw [if_pos hconf, if_neg hjson] at hcc
      rw [← Except.ok.inj hcc] at hflag
      simp at hflag
  refine ⟨?_, hccjson⟩
  cases hv : _RouteConfig.is_valid w.routeCfg with
  | ok bv =>
    cases bv
    · exfalso
      rcases hstep with ⟨r, hr, hrs⟩ | hcc
      · unfold _on_ingress_data_provided at hr
        rw [config_ready_of_valid_false w s hv] at hr
        rw [← Except.ok.inj hr] at hrs
        rw [← hrs] at hflag
        simp [IngressResult.state] at hflag
      · unfold _on_config_changed at hcc
        by_cases hconf : access_rules_configured w = true
        · have hjson := hccjson hcc hconf
          rw [if_pos hconf, if_pos hjson] at hcc
          unfold configChangedTail at hcc
          rw [config_ready_of_valid_false w _ hv] at hcc
          simp only [Bool.false_eq_true, if_false, Except.ok.injEq] at hcc
          rw [← hcc, on_update_status_flag] at hflag
          simp at hflag
        · rw [if_neg hconf] at hcc
          unfold configChangedTail at hcc
          rw [config_ready_of_valid_false w _ hv] at hcc
          simp only [Bool.false_eq_true, if_false, Except.ok.injEq] at hcc
          rw [← hcc, on_update_status_flag] at hflag
          simp at hflag
    · rfl
  | error e =>
    exfalso
    rcases hstep with ⟨r, hr, hrs⟩ | hcc
    · unfold _on_ingress_data_provided at hr
      rw [config_ready_of_valid_error w s e hv] at hr
      cases hr
    · unfold _on_config_changed at hcc
      by_cases hconf : access_rules_configured w = true
      · by_cases hjson : jsonLoads (w.access_rules.getD "") = true
        · rw [if_pos hconf, if_pos hjson] at hcc
          unfold configChangedTail at hcc
          rw [config_ready_of_valid_error w _ e hv] at hcc
          cases hcc
        · rw [if_pos hconf, if_neg hjson] at hcc
          rw [← Except.ok.inj hcc] at hflag
          simp at hflag
      · rw [if_neg hconf] at hcc
        unfold configChangedTail at hcc
        rw [config_ready_of_valid_error w _ e hv] at hcc
        cases hcc

/-- C2 witness: the amended theorem applied to the counterexample's second
step: the flag got cleared, so the route check must have passed. -/
theorem c2_witness :
    _RouteConfig.is_valid c2World.routeCfg = .ok true :=
  (c2_flag_cleared_only_by_revalidation jsonOk c2World c2Mid c2End
    (Or.inl ⟨.deferred c2End, rfl, rfl⟩) rfl).1

/-- The world of the C3 failing input: empty access-rules configuration,
valid route config, ingress relation present and ready, no routed units. -/
def c3World : World :=
  { access_rules := none
    root_url := some "http://x"
    rule := none
    ipuRelationExists := true
    ipuRelationReady := true
    readyUnitData := [] }

/-- C3: with the access-rules configuration absent and the sticky flag clear,
the reconciliation of a config-changed event ends with ActiveStatus when the
ingress relation is present and ready, although `_on_update_status` first
sets the missing-access_rules Blocked status: the branch lacks a `return`, so
the later relation checks overwrite the status, contradicting both the claim
and the handler's own docstring ("if any mandatory config is missing, the
status is blocked"). -/
theorem c3_missing_return_code_bug :
    access_rules_configured c3World = false ∧
    c3World.ipuRelationExists = true ∧
    c3World.ipuRelationReady = true ∧
    _on_config_changed jsonOk c3World { invalid_config := false, status := .unchanged } =
      .ok { invalid_config := false, status := .active } ∧
    _on_update_status c3World { invalid_config := false, status := .unchanged } =
      { invalid_config := false, status := .active } := by
  refine ⟨rfl, rfl, rfl, rfl, rfl⟩
